import Mathlib

/-!
Verification of the URL dispatch subsystem of the `pipe` blogging platform
(`controller/router.go`).  The route matcher `routePath` and the route-table
wiring in `MapRoutes` are embedded shallowly; path-table constants from the
`util` package and the per-view parameter extraction performed by the content
view handlers are modelled from the specification, since their source is not
part of the examined tree.
-/

namespace Pipe

/-- Modelled from the spec: Path Table keyword for the activities view
(`util.PathActivities`, the `util` package is not in the examined sources;
the spec gives the table entries as bare segments such as "archives"). -/
def pathActivities : String := "activities"

/-- Modelled from the spec: Path Table keyword `util.PathArchives`. -/
def pathArchives : String := "archives"

/-- Modelled from the spec: Path Table keyword `util.PathAuthors`. -/
def pathAuthors : String := "authors"

/-- Modelled from the spec: Path Table keyword `util.PathCategories`. -/
def pathCategories : String := "categories"

/-- Modelled from the spec: Path Table keyword `util.PathTags`. -/
def pathTags : String := "tags"

/-- Modelled from the spec: Path Table keyword `util.PathComments`. -/
def pathComments : String := "comments"

/-- Modelled from the spec: Path Table keyword `util.PathAtom` (the feed
endpoint). -/
def pathAtom : String := "atom"

/-- The View Kind enumeration of the spec's data model: each constructor is
one of the content views `routePath` can hand a request to, plus
`Unhandled` for the fall-through case. -/
inductive ViewKind where
  | Activities
  | Archives
  | Authors
  | Categories
  | Tags
  | Comments
  | AtomFeed
  | ArchiveArticles
  | AuthorArticles
  | CategoryArticles
  | TagArticles
  | CommentReplies
  | Unhandled
  deriving DecidableEq, Repr

/-- A Route Decision: the selected View Kind together with the trailing
parameter (slug / name / id) that the selected view consumes. -/
structure RouteDecision where
  kind : ViewKind
  param : String
  deriving DecidableEq, Repr

/-- Helper for Go's `strings.Contains` on character lists: does `pat`
occur as a contiguous run inside the second list? -/
def goContainsAux (pat : List Char) : List Char → Bool
  | [] => pat.isEmpty
  | c :: rest => pat.isPrefixOf (c :: rest) || goContainsAux pat rest

/-- Go's `strings.Contains s sub`: `sub` occurs as a substring of `s`. -/
def goContains (s sub : String) : Bool :=
  goContainsAux sub.toList s.toList

/-- Everything after the first occurrence of `pat` in the list (empty when
`pat` does not occur). -/
def afterFirstAux (pat : List Char) : List Char → List Char
  | [] => []
  | c :: rest =>
    if pat.isPrefixOf (c :: rest) then (c :: rest).drop pat.length
    else afterFirstAux pat rest

/-- Modelled from the spec: the content view handlers (not in the examined
sources) receive "the remainder after the prefix+separator … as the
decision's parameter"; we take the text after the first occurrence of the
matched keyword followed by the separator. -/
def afterFirst (s pat : String) : String :=
  String.mk (afterFirstAux pat.toList s.toList)

/-- Shallow embedding of `routePath` (`controller/router.go`): first the
`switch path` over the seven exact Path Table entries, then the chain of
`strings.Contains(path, keyword+"/")` tests in source order (Archives,
Authors, Categories, Tags, Comments).  Exact matches carry no remainder;
for the `Contains` branches the parameter is the spec-modelled remainder
extracted by the selected handler. -/
def routePath (path : String) : RouteDecision :=
  if path = pathActivities then ⟨ViewKind.Activities, ""⟩
  else if path = pathArchives then ⟨ViewKind.Archives, ""⟩
  else if path = pathAuthors then ⟨ViewKind.Authors, ""⟩
  else if path = pathCategories then ⟨ViewKind.Categories, ""⟩
  else if path = pathTags then ⟨ViewKind.Tags, ""⟩
  else if path = pathComments then ⟨ViewKind.Comments, ""⟩
  else if path = pathAtom then ⟨ViewKind.AtomFeed, ""⟩
  else if goContains path (pathArchives ++ "/") then
    ⟨ViewKind.ArchiveArticles, afterFirst path (pathArchives ++ "/")⟩
  else if goContains path (pathAuthors ++ "/") then
    ⟨ViewKind.AuthorArticles, afterFirst path (pathAuthors ++ "/")⟩
  else if goContains path (pathCategories ++ "/") then
    ⟨ViewKind.CategoryArticles, afterFirst path (pathCategories ++ "/")⟩
  else if goContains path (pathTags ++ "/") then
    ⟨ViewKind.TagArticles, afterFirst path (pathTags ++ "/")⟩
  else if goContains path (pathComments ++ "/") then
    ⟨ViewKind.CommentReplies, afterFirst path (pathComments ++ "/")⟩
  else ⟨ViewKind.Unhandled, ""⟩

/-- The exact-match stage's condition: the `switch path` head of
`routePath` matches. -/
def exactStage (path : String) : Bool :=
  path = pathActivities || path = pathArchives || path = pathAuthors ||
  path = pathCategories || path = pathTags || path = pathComments ||
  path = pathAtom

/-- The second stage's condition: one of the five
`strings.Contains(path, keyword+"/")` tests of `routePath` fires. -/
def containsStage (path : String) : Bool :=
  goContains path (pathArchives ++ "/") || goContains path (pathAuthors ++ "/") ||
  goContains path (pathCategories ++ "/") || goContains path (pathTags ++ "/") ||
  goContains path (pathComments ++ "/")

/-- The content view handlers `routePath` invokes on a given path: each
branch of the source calls exactly one handler and then `return`s; the
fall-through calls none. -/
def handlersInvoked (path : String) : List ViewKind :=
  if path = pathActivities then [ViewKind.Activities]
  else if path = pathArchives then [ViewKind.Archives]
  else if path = pathAuthors then [ViewKind.Authors]
  else if path = pathCategories then [ViewKind.Categories]
  else if path = pathTags then [ViewKind.Tags]
  else if path = pathComments then [ViewKind.Comments]
  else if path = pathAtom then [ViewKind.AtomFeed]
  else if goContains path (pathArchives ++ "/") then [ViewKind.ArchiveArticles]
  else if goContains path (pathAuthors ++ "/") then [ViewKind.AuthorArticles]
  else if goContains path (pathCategories ++ "/") then [ViewKind.CategoryArticles]
  else if goContains path (pathTags ++ "/") then [ViewKind.TagArticles]
  else if goContains path (pathComments ++ "/") then [ViewKind.CommentReplies]
  else []

/-- One dispatch with the only state `routePath` touches made explicit:
the logger's output.  Only the fall-through branch logs, via
`logger.Infof` with the message `can` + apostrophe + `t handle path [` +
path + `]`; every other branch leaves the log untouched. -/
def dispatch (path : String) (log : List String) : RouteDecision × List String :=
  let d := routePath path
  if d.kind = ViewKind.Unhandled then
    (d, log ++ ["can\x27t handle path [" ++ path ++ "]"])
  else (d, log)

/-- The Blog Context of the spec's data model: blog identity, owning user,
viewer identity (possibly anonymous).  Resolved by the `resolveBlog`
middleware before dispatch. -/
structure BlogContext where
  blogID : Nat
  ownerID : Nat
  viewerID : Option Nat
  deriving DecidableEq, Repr

/-- A blog-root request as `routePath` sees it: the wildcard route path
plus the request-scoped Blog Context attached by the middleware.
`routePath` reads only the path (`c.Param("path")`). -/
structure Request where
  path : String
  ctx : BlogContext
  deriving DecidableEq, Repr

/-- Dispatch of a full request: the source's `routePath(c)` consults only
`c.Param("path")`, no other request data. -/
def dispatchRequest (r : Request) : RouteDecision :=
  routePath r.path

/-- Outcome of a blog-root request at the model's granularity. -/
inductive Response where
  | page (d : RouteDecision)
  | notFound
  deriving DecidableEq, Repr

/-- Modelled from the spec: the Blog Context Resolver middleware
(`fillUser`, `resolveBlog`, whose bodies are not in the examined sources).
`MapRoutes` installs it on the blog group before the `routePath` handler;
per the spec, on failure it must "short-circuit the request with a
not-found/error response; downstream dispatch and handlers MUST NOT run".
The pair returned records the response and the content view handlers that
ran. -/
def handleBlogRequest (resolve : String → Option BlogContext)
    (username path : String) : Response × List ViewKind :=
  match resolve username with
  | none => (Response.notFound, [])
  | some _ => (Response.page (routePath path), handlersInvoked path)

/-- Helper: an if-then-else of two short handler lists is short. -/
theorem length_ite_le_one (c : Prop) [Decidable c] (a b : List ViewKind)
    (ha : a.length ≤ 1) (hb : b.length ≤ 1) :
    (if c then a else b).length ≤ 1 := by
  by_cases h : c <;> simp [h, ha, hb]

/-- The first component of `dispatch` is `routePath`, whatever the log
state. -/
theorem dispatch_fst (p : String) (log : List String) :
    (dispatch p log).1 = routePath p := by
  unfold dispatch
  dsimp only
  split <;> rfl

/-- Claim C1: the claim states that a keyword+separator occurring only as a
non-leading substring yields Unhandled, i.e. that matching is anchored.
The source uses `strings.Contains`, a substring search: the path
"x/archives/2024", whose "archives/" occurrence is not the leading
segment, is dispatched to ArchiveArticles, not Unhandled — while
"tags-extra/foo", which contains no keyword+separator substring at all,
does fall through to Unhandled as the claim expects. -/
theorem c1_substringSearchNotAnchored :
    routePath "x/archives/2024" = ⟨ViewKind.ArchiveArticles, "2024"⟩ ∧
    (routePath "x/archives/2024").kind ≠ ViewKind.Unhandled ∧
    routePath "tags-extra/foo" = ⟨ViewKind.Unhandled, ""⟩ := by
  decide

/-- Claim C2: every route path exactly equal to one of the seven fixed
Path Table entries is dispatched to that entry's View Kind with an empty
parameter (the exact-match `switch` head of `routePath`). -/
theorem c2_exactTableEntries :
    routePath pathActivities = ⟨ViewKind.Activities, ""⟩ ∧
    routePath pathArchives = ⟨ViewKind.Archives, ""⟩ ∧
    routePath pathAuthors = ⟨ViewKind.Authors, ""⟩ ∧
    routePath pathCategories = ⟨ViewKind.Categories, ""⟩ ∧
    routePath pathTags = ⟨ViewKind.Tags, ""⟩ ∧
    routePath pathComments = ⟨ViewKind.Comments, ""⟩ ∧
    routePath pathAtom = ⟨ViewKind.AtomFeed, ""⟩ := by
  decide

/-- Claim C3: the claim states that every anchored "keyword/rest" path with
non-empty rest selects that keyword's filtered kind with parameter rest.
The source's `strings.Contains` chain in priority order breaks this:
"tags/archives/x" is anchored at "tags" with rest "archives/x", yet the
earlier `Contains(path, "archives/")` test fires first, dispatching to
ArchiveArticles with parameter "x" instead of TagArticles with parameter
"archives/x". -/
theorem c3_priorityContainsBeatsAnchoredForm :
    routePath "tags/archives/x" = ⟨ViewKind.ArchiveArticles, "x"⟩ ∧
    routePath "tags/archives/x" ≠ ⟨ViewKind.TagArticles, "archives/x"⟩ ∧
    (routePath "tags/archives/x").kind ≠ ViewKind.TagArticles := by
  decide

/-- Claim C4: exact match takes precedence over the `Contains` stage — each
bare keyword selects the bare listing kind, never the filtered variant;
in particular "archives" yields the Archives listing, not ArchiveArticles. -/
theorem c4_exactBeforeFiltered :
    routePath "archives" = ⟨ViewKind.Archives, ""⟩ ∧
    (routePath "archives").kind ≠ ViewKind.ArchiveArticles ∧
    routePath "authors" = ⟨ViewKind.Authors, ""⟩ ∧
    (routePath "authors").kind ≠ ViewKind.AuthorArticles ∧
    routePath "categories" = ⟨ViewKind.Categories, ""⟩ ∧
    (routePath "categories").kind ≠ ViewKind.CategoryArticles ∧
    routePath "tags" = ⟨ViewKind.Tags, ""⟩ ∧
    (routePath "tags").kind ≠ ViewKind.TagArticles ∧
    routePath "comments" = ⟨ViewKind.Comments, ""⟩ ∧
    (routePath "comments").kind ≠ ViewKind.CommentReplies := by
  decide

/-- Claim C5: when neither the exact-match stage nor the `Contains` stage
fires, the decision is Unhandled, the unmatched path is recorded in the
log with the source's message, and dispatch returns normally (the
embedding is a total function into `RouteDecision`, with no error
outcome). -/
theorem c5_unmatchedLoggedUnhandled (p : String) (log : List String)
    (h1 : exactStage p = false) (h2 : containsStage p = false) :
    (dispatch p log).1 = ⟨ViewKind.Unhandled, ""⟩ ∧
    (dispatch p log).2 = log ++ ["can\x27t handle path [" ++ p ++ "]"] := by
  simp only [exactStage, Bool.or_eq_false_iff, decide_eq_false_iff_not] at h1
  simp only [containsStage, Bool.or_eq_false_iff] at h2
  obtain ⟨⟨⟨⟨⟨⟨e1, e2⟩, e3⟩, e4⟩, e5⟩, e6⟩, e7⟩ := h1
  obtain ⟨⟨⟨⟨g1, g2⟩, g3⟩, g4⟩, g5⟩ := h2
  constructor <;>
    simp [dispatch, routePath, e1, e2, e3, e4, e5, e6, e7, g1, g2, g3, g4, g5]

/-- Witness for C5 at the spec's example "nonexistent/segment". -/
theorem c5_witness :
    exactStage "nonexistent/segment" = false ∧
    containsStage "nonexistent/segment" = false ∧
    (dispatch "nonexistent/segment" []).1 = ⟨ViewKind.Unhandled, ""⟩ ∧
    (dispatch "nonexistent/segment" []).2 =
      [] ++ ["can\x27t handle path [" ++ "nonexistent/segment" ++ "]"] :=
  ⟨by decide, by decide,
    (c5_unmatchedLoggedUnhandled "nonexistent/segment" [] (by decide) (by decide)).1,
    (c5_unmatchedLoggedUnhandled "nonexistent/segment" [] (by decide) (by decide)).2⟩

/-- Claim C6: each branch of `routePath` invokes one handler and returns,
and the fall-through invokes none, so no route path ever causes two
content view handlers to run in one dispatch. -/
theorem c6_atMostOneHandler (p : String) : (handlersInvoked p).length ≤ 1 := by
  unfold handlersInvoked
  repeat' apply length_ite_le_one
  all_goals simp

/-- Claim C7: dispatch is deterministic and stateless — repeating a
dispatch after its own log write yields the same decision, and the
decision does not depend on the incoming log state at all. -/
theorem c7_deterministicStateless (p : String) (log log2 : List String) :
    (dispatch p ((dispatch p log).2)).1 = (dispatch p log).1 ∧
    (dispatch p log2).1 = (dispatch p log).1 := by
  constructor <;> rw [dispatch_fst, dispatch_fst]

/-- Claim C8: when the Blog Context Resolver fails for the username, the
request short-circuits to a not-found response with no handler run —
`routePath` is never consulted (spec-modelled middleware chain of
`MapRoutes`). -/
theorem c8_resolverFailureShortCircuits
    (resolve : String → Option BlogContext) (username path : String)
    (h : resolve username = none) :
    handleBlogRequest resolve username path = (Response.notFound, []) := by
  simp [handleBlogRequest, h]

/-- Witness for C8 with a resolver that knows no usernames. -/
theorem c8_witness :
    handleBlogRequest (fun _ => none) "alice" "tags/golang" =
      (Response.notFound, []) :=
  c8_resolverFailureShortCircuits (fun _ => none) "alice" "tags/golang" rfl

/-- Claim C9: a keyword followed by the separator with an empty remainder,
"tags/", is not an exact table entry, but the `Contains` test for
"tags/" fires, so the dispatcher selects TagArticles with an empty
parameter rather than Unhandled. -/
theorem c9_emptyRemainderStillFiltered :
    routePath "tags/" = ⟨ViewKind.TagArticles, ""⟩ ∧
    (routePath "tags/").kind ≠ ViewKind.Unhandled := by
  decide

/-- Claim C10: the Route Decision depends only on the route path string —
two requests with equal paths dispatch identically regardless of their
Blog Contexts, since `routePath` reads only `c.Param("path")`. -/
theorem c10_decisionDependsOnlyOnPath (r1 r2 : Request)
    (h : r1.path = r2.path) : dispatchRequest r1 = dispatchRequest r2 := by
  unfold dispatchRequest
  rw [h]

/-- Witness for C10: two requests sharing a path but with different blog
and viewer identities get the same decision. -/
theorem c10_witness :
    (⟨"tags/golang", ⟨1, 1, some 2⟩⟩ : Request).ctx ≠
      (⟨"tags/golang", ⟨7, 8, none⟩⟩ : Request).ctx ∧
    dispatchRequest ⟨"tags/golang", ⟨1, 1, some 2⟩⟩ =
      dispatchRequest ⟨"tags/golang", ⟨7, 8, none⟩⟩ :=
  ⟨by decide, c10_decisionDependsOnlyOnPath _ _ rfl⟩

end Pipe
